import Mathlib

/-! Shallow embedding of `dev_nb/001b_fit.ipynb` (a basic training loop built
on an external deep-learning framework).  The notebook's own code is glue
that sequences framework calls; we model the framework abstractly (forward
pass, loss computation, backward pass, optimizer step, zero-gradient reset,
mode switches, device transfer) and embed the notebook's functions
faithfully, recording the sequence of framework calls each function performs
as a trace of events. -/

/-- A framework device, as produced by `torch.device('cuda')` /
`torch.device('cpu')`. -/
inductive Device where
  | cuda
  | cpu
deriving DecidableEq, Repr

/-- Embedding of `default_device = torch.device('cuda') if
torch.cuda.is_available() else torch.device('cpu')`, parametrised by the
`torch.cuda.is_available()` result observed once at import. -/
def default_device (cuda_is_available : Bool) : Device :=
  if cuda_is_available then Device.cuda else Device.cpu

/-- Embedding of `ifnone(a,b)`: `b if a is None else a`. -/
def ifnone {α : Type} (a : Option α) (b : α) : α :=
  match a with
  | none => b
  | some x => x

/-- The `Tensors` union of the notebook: a tensor, or a (possibly nested)
tuple or list of `Tensors`.  Tuples and lists are distinguished because
Python distinguishes them (`to_device` returns lists even for tuple input). -/
inductive Tensors (τ : Type) where
  | tensor (t : τ)
  | tuple (ts : List (Tensors τ))
  | list (ts : List (Tensors τ))

/-- Embedding of `is_listy(x)`: `isinstance(x, (tuple, list))`. -/
def is_listy {τ : Type} : Tensors τ → Bool
  | .tensor _ => false
  | .tuple _ => true
  | .list _ => true

/-- The list-wrapping done at the top of `loss_batch`:
`if not is_listy(b): b = [b]`; afterwards `b` is a sequence whose elements
can be splatted into a call and counted with `len`. -/
def listify {τ : Type} : Tensors τ → List (Tensors τ)
  | .tensor t => [.tensor t]
  | .tuple ts => ts
  | .list ts => ts

/-- Embedding of `to_device(b, device)`: resolve
`device = ifnone(device, default_device)`; on a tuple or list return the
Python list of recursively transferred elements, otherwise `b.to(device)`.
`toT` is the framework's `Tensor.to` and `dflt` the module-level
`default_device`. -/
def to_device {τ : Type} (toT : τ → Device → τ) (dflt : Device)
    (b : Tensors τ) (dev : Option Device) : Tensors τ :=
  let device := ifnone dev dflt
  match b with
  | .tensor t => .tensor (toT t device)
  | .tuple ts => .list (ts.attach.map (fun o => to_device toT dflt o.1 (some device)))
  | .list ts => .list (ts.attach.map (fun o => to_device toT dflt o.1 (some device)))
termination_by sizeOf b
decreasing_by
  all_goals simp_wf
  all_goals have := List.sizeOf_lt_of_mem o.2
  all_goals omega

/-- One framework call performed by the notebook's glue code, recorded with
the data it was given where the order of batches matters. -/
inductive Ev (τ : Type) where
  | trainMode
  | evalMode
  | forward (xb : List (Tensors τ))
  | lossCompute (yb : List (Tensors τ))
  | backward
  | optStep
  | zeroGrad
  | noGradBegin
  | noGradEnd
  | printLoss (epoch : Nat) (val_loss : ℚ)

/-- The external framework, abstracted.  `σ` is the combined mutable state of
the model's parameters/gradients and the optimizer; `π` is the prediction
type.  `forward` reads the state only (a forward pass does not change
parameters); `backward`, `opt_step` and `zero_grad` are the state mutators
behind `loss.backward()`, `opt.step()` and `opt.zero_grad()`; `train` and
`eval` are `model.train()` / `model.eval()`. -/
structure FW (τ π σ : Type) where
  forward : σ → List (Tensors τ) → π
  loss_fn : π → List (Tensors τ) → ℚ
  backward : σ → σ
  opt_step : σ → σ
  zero_grad : σ → σ
  train : σ → σ
  eval : σ → σ

/-- Embedding of `loss_batch(model, xb, yb, loss_fn, opt)`: wrap `xb`/`yb`
into lists if not listy, compute `loss = loss_fn(model(*xb), *yb)`; if `opt`
is not None run `loss.backward(); opt.step(); opt.zero_grad()`; return
`(loss.item(), len(yb))`.  The boolean `opt` records whether an optimizer
was passed; the result is (return value, final state, call trace). -/
def loss_batch {τ π σ : Type} (fw : FW τ π σ) (s : σ) (xb yb : Tensors τ)
    (opt : Bool) : (ℚ × Nat) × σ × List (Ev τ) :=
  let xs := listify xb
  let ys := listify yb
  let pred := fw.forward s xs
  let loss := fw.loss_fn pred ys
  if opt then
    let s1 := fw.backward s
    let s2 := fw.opt_step s1
    let s3 := fw.zero_grad s2
    ((loss, ys.length), s3,
      [.forward xs, .lossCompute ys, .backward, .optStep, .zeroGrad])
  else
    ((loss, ys.length), s, [.forward xs, .lossCompute ys])

/-- The training loop of `fit`:
`for xb,yb in train_dl: loss,_ = loss_batch(model, xb, yb, loss_fn, opt)`,
threading the model/optimizer state and collecting the call trace. -/
def train_phase {τ π σ : Type} (fw : FW τ π σ) :
    σ → List (Tensors τ × Tensors τ) → σ × List (Ev τ)
  | s, [] => (s, [])
  | s, (xb, yb) :: rest =>
    let r := loss_batch fw s xb yb true
    let rest' := train_phase fw r.2.1 rest
    (rest'.1, r.2.2 ++ rest'.2)

/-- The validation list comprehension of `fit`:
`[loss_batch(model, xb, yb, loss_fn) for xb,yb in valid_dl]` (no optimizer,
so the state is left untouched), returning the list of `(loss, num)` pairs
and the call trace. -/
def valid_results {τ π σ : Type} (fw : FW τ π σ) (s : σ) :
    List (Tensors τ × Tensors τ) → List (ℚ × Nat) × List (Ev τ)
  | [] => ([], [])
  | (xb, yb) :: rest =>
    let r := loss_batch fw s xb yb false
    let rest' := valid_results fw s rest
    (r.1 :: rest'.1, r.2.2 ++ rest'.2)

/-- Embedding of `np.sum(np.multiply(losses, nums)) / np.sum(nums)` over the
per-batch `(loss, num)` results. -/
def weighted_val_loss (rs : List (ℚ × Nat)) : ℚ :=
  (rs.map (fun p => p.1 * (p.2 : ℚ))).sum / (rs.map (fun p => (p.2 : ℚ))).sum

/-- One iteration of `fit`'s epoch loop: `model.train()`; the training loop;
`model.eval()`; under `torch.no_grad()` the validation comprehension;
`losses,nums = zip(*results)`;
`val_loss = np.sum(np.multiply(losses,nums)) / np.sum(nums)`;
`print(epoch, val_loss)`.  When the comprehension result is empty (empty
`valid_dl`) the unpacking `losses,nums = zip(*[])` raises `ValueError`: the
no-grad block is exited during unwinding, nothing is printed and the
exception escapes, modelled by a `none` result with the trace stopping
after `noGradEnd`. -/
def fit_epoch {τ π σ : Type} (fw : FW τ π σ) (s : σ)
    (tdl vdl : List (Tensors τ × Tensors τ)) (epoch : Nat) :
    Option σ × List (Ev τ) :=
  let s1 := fw.train s
  let tr := train_phase fw s1 tdl
  let s3 := fw.eval tr.1
  let vr := valid_results fw s3 vdl
  match vr.1 with
  | [] =>
    (none, Ev.trainMode :: tr.2
          ++ [Ev.evalMode, Ev.noGradBegin] ++ vr.2 ++ [Ev.noGradEnd])
  | _ :: _ =>
    let val_loss := weighted_val_loss vr.1
    (some s3, Ev.trainMode :: tr.2
          ++ [Ev.evalMode, Ev.noGradBegin] ++ vr.2
          ++ [Ev.noGradEnd, Ev.printLoss epoch val_loss])

/-- The body of `fit`'s epoch loop as a step on the accumulated
(result, trace) pair: a pending exception (`none`) skips the remaining
epochs (the exception is propagating), otherwise the next `fit_epoch`
runs. -/
def fit_step {τ π σ : Type} (fw : FW τ π σ)
    (tdl vdl : List (Tensors τ × Tensors τ))
    (acc : Option σ × List (Ev τ)) (epoch : Nat) : Option σ × List (Ev τ) :=
  match acc.1 with
  | none => acc
  | some s' =>
    let r := fit_epoch fw s' tdl vdl epoch
    (r.1, acc.2 ++ r.2)

/-- Embedding of `fit(epochs, model, loss_fn, opt, train_dl, valid_dl)`:
`for epoch in range(epochs): ...` over `fit_epoch`; the `ValueError` raised
inside an epoch on an empty `valid_dl` aborts the remaining epochs and
escapes (`none`). -/
def fit {τ π σ : Type} (fw : FW τ π σ) (epochs : Nat) (s : σ)
    (tdl vdl : List (Tensors τ × Tensors τ)) : Option σ × List (Ev τ) :=
  (List.range epochs).foldl (fit_step fw tdl vdl) (some s, [])

/-- The model/optimizer state after one epoch of `fit` starting from `s`:
train mode, the training loop over `tdl`, then eval mode. -/
def epoch_state {τ π σ : Type} (fw : FW τ π σ)
    (tdl : List (Tensors τ × Tensors τ)) (s : σ) : σ :=
  fw.eval (train_phase fw (fw.train s) tdl).1

/-- The state after `n` epochs of `fit`. -/
def fit_state {τ π σ : Type} (fw : FW τ π σ)
    (tdl : List (Tensors τ × Tensors τ)) (s : σ) : Nat → σ
  | 0 => s
  | n + 1 => epoch_state fw tdl (fit_state fw tdl s n)

/-- Spec-side description of one epoch's event trace, written from the
claim's words: training mode; `loss_batch` with the optimizer on every batch
of `tdl` in order; evaluation mode; `loss_batch` without the optimizer under
no-gradient mode on every batch of `vdl`; printing a validation loss equal
to `sum(losses*nums)/sum(nums)` over the per-batch results. -/
def epoch_trace_spec {τ π σ : Type} (fw : FW τ π σ) (s : σ)
    (tdl vdl : List (Tensors τ × Tensors τ)) (epoch : Nat) : List (Ev τ) :=
  [Ev.trainMode]
  ++ (tdl.map (fun b => [Ev.forward (listify b.1), Ev.lossCompute (listify b.2),
        Ev.backward, Ev.optStep, Ev.zeroGrad])).flatten
  ++ [Ev.evalMode, Ev.noGradBegin]
  ++ (vdl.map (fun b => [Ev.forward (listify b.1), Ev.lossCompute (listify b.2)])).flatten
  ++ [Ev.noGradEnd,
      Ev.printLoss epoch (weighted_val_loss
        (vdl.map (fun b => (loss_batch fw (epoch_state fw tdl s) b.1 b.2 false).1)))]

/-- The external framework with failure: each call may raise, which we model
by `Except`.  Used to settle what the notebook's glue does when a framework
call fails. -/
structure FWE (τ π σ ε : Type) where
  forward : σ → List (Tensors τ) → Except ε π
  loss_fn : π → List (Tensors τ) → Except ε ℚ
  backward : σ → Except ε σ
  opt_step : σ → Except ε σ
  zero_grad : σ → Except ε σ
  train : σ → Except ε σ
  eval : σ → Except ε σ

/-- Embedding of `loss_batch` over the failing framework: the same sequence
of calls, each of which may raise; a raise aborts the remaining calls and is
returned as is (the source has no try/except).  The trace records the calls
attempted, in order. -/
def loss_batchE {τ π σ ε : Type} (fw : FWE τ π σ ε) (s : σ) (xb yb : Tensors τ)
    (opt : Bool) : Except ε ((ℚ × Nat) × σ) × List (Ev τ) :=
  let xs := listify xb
  let ys := listify yb
  match fw.forward s xs with
  | .error e => (.error e, [.forward xs])
  | .ok pred =>
    match fw.loss_fn pred ys with
    | .error e => (.error e, [.forward xs, .lossCompute ys])
    | .ok loss =>
      if opt then
        match fw.backward s with
        | .error e => (.error e, [.forward xs, .lossCompute ys, .backward])
        | .ok s1 =>
          match fw.opt_step s1 with
          | .error e => (.error e, [.forward xs, .lossCompute ys, .backward, .optStep])
          | .ok s2 =>
            match fw.zero_grad s2 with
            | .error e =>
              (.error e, [.forward xs, .lossCompute ys, .backward, .optStep, .zeroGrad])
            | .ok s3 =>
              (.ok ((loss, ys.length), s3),
               [.forward xs, .lossCompute ys, .backward, .optStep, .zeroGrad])
      else (.ok ((loss, ys.length), s), [.forward xs, .lossCompute ys])

/-- The training loop of `fit` over the failing framework: a raise inside
`loss_batch` aborts the loop and propagates. -/
def train_phaseE {τ π σ ε : Type} (fw : FWE τ π σ ε) :
    σ → List (Tensors τ × Tensors τ) → Except ε σ × List (Ev τ)
  | s, [] => (.ok s, [])
  | s, (xb, yb) :: rest =>
    match loss_batchE fw s xb yb true with
    | (.error e, tr) => (.error e, tr)
    | (.ok r, tr) =>
      let rest' := train_phaseE fw r.2 rest
      (rest'.1, tr ++ rest'.2)

/-- The validation comprehension of `fit` over the failing framework: a
raise aborts the comprehension and propagates. -/
def valid_resultsE {τ π σ ε : Type} (fw : FWE τ π σ ε) (s : σ) :
    List (Tensors τ × Tensors τ) → Except ε (List (ℚ × Nat)) × List (Ev τ)
  | [] => (.ok [], [])
  | (xb, yb) :: rest =>
    match loss_batchE fw s xb yb false with
    | (.error e, tr) => (.error e, tr)
    | (.ok r, tr) =>
      match valid_resultsE fw s rest with
      | (.error e, tr') => (.error e, tr ++ tr')
      | (.ok rs, tr') => (.ok (r.1 :: rs), tr ++ tr')

/-- An exception escaping `fit` over the failing framework: either a
framework error propagated from one of its calls, or the `ValueError`
Python raises at `losses,nums = zip(*[])` when the validation comprehension
is empty. -/
inductive PyErr (ε : Type) where
  | framework (e : ε)
  | valueError

/-- One iteration of `fit`'s epoch loop over the failing framework; an
empty validation comprehension raises `ValueError` exactly as in the pure
embedding. -/
def fit_epochE {τ π σ ε : Type} (fw : FWE τ π σ ε) (s : σ)
    (tdl vdl : List (Tensors τ × Tensors τ)) (epoch : Nat) :
    Except (PyErr ε) σ × List (Ev τ) :=
  match fw.train s with
  | .error e => (.error (.framework e), [.trainMode])
  | .ok s1 =>
    match train_phaseE fw s1 tdl with
    | (.error e, tr) => (.error (.framework e), .trainMode :: tr)
    | (.ok s2, tr) =>
      match fw.eval s2 with
      | .error e => (.error (.framework e), .trainMode :: tr ++ [.evalMode])
      | .ok s3 =>
        match valid_resultsE fw s3 vdl with
        | (.error e, vtr) =>
          (.error (.framework e), .trainMode :: tr ++ [.evalMode, .noGradBegin] ++ vtr)
        | (.ok [], vtr) =>
          (.error .valueError,
           .trainMode :: tr ++ [.evalMode, .noGradBegin] ++ vtr ++ [.noGradEnd])
        | (.ok rs, vtr) =>
          (.ok s3, .trainMode :: tr ++ [.evalMode, .noGradBegin] ++ vtr
            ++ [.noGradEnd, .printLoss epoch (weighted_val_loss rs)])

/-- The body of `fitE`'s epoch loop: a pending exception skips the
remaining epochs. -/
def fit_stepE {τ π σ ε : Type} (fw : FWE τ π σ ε)
    (tdl vdl : List (Tensors τ × Tensors τ))
    (acc : Except (PyErr ε) σ × List (Ev τ)) (epoch : Nat) :
    Except (PyErr ε) σ × List (Ev τ) :=
  match acc.1 with
  | .error _ => acc
  | .ok s' =>
    let r := fit_epochE fw s' tdl vdl epoch
    (r.1, acc.2 ++ r.2)

/-- Embedding of `fit` over the failing framework: a raise inside an epoch
aborts the remaining epochs and propagates. -/
def fitE {τ π σ ε : Type} (fw : FWE τ π σ ε) (epochs : Nat) (s : σ)
    (tdl vdl : List (Tensors τ × Tensors τ)) :
    Except (PyErr ε) σ × List (Ev τ) :=
  (List.range epochs).foldl (fit_stepE fw tdl vdl) (.ok s, [])

/-- The bodies of the `Lambda` layers defined in the notebook:
`lambda x: x.view((-1,)+size)` (from `ResizeBatch`) and
`lambda x: x.view((x.size(0), -1))` (from `Flatten`). -/
inductive LambdaFn where
  | resizeBatch (size : List Nat)
  | flattenFn
deriving DecidableEq, Repr

/-- Symbolic model of the framework layer/module expressions the notebook
constructs: `nn.Conv2d`, `nn.ReLU`, `nn.BatchNorm2d`, `nn.ConvTranspose2d`,
`nn.AdaptiveAvgPool2d`, `Lambda` and `nn.Sequential`. -/
inductive Layer where
  | conv2dL (ni nf ks stride padding : Nat) (bias : Bool)
  | reluL
  | batchNorm2dL (nf : Nat)
  | convTranspose2dL (ni nf ks stride padding : Nat)
  | adaptiveAvgPool2dL (output_size : Nat)
  | lambdaL (func : LambdaFn)
  | seqL (layers : List Layer)

/-- Embedding of `ResizeBatch(*size)`: `Lambda(lambda x: x.view((-1,)+size))`. -/
def ResizeBatch (size : List Nat) : Layer :=
  Layer.lambdaL (LambdaFn.resizeBatch size)

/-- Embedding of `Flatten()`: `Lambda(lambda x: x.view((x.size(0), -1)))`. -/
def Flatten : Layer :=
  Layer.lambdaL LambdaFn.flattenFn

/-- Embedding of `PoolFlatten()`:
`nn.Sequential(nn.AdaptiveAvgPool2d(1), Flatten())`. -/
def PoolFlatten : Layer :=
  Layer.seqL [Layer.adaptiveAvgPool2dL 1, Flatten]

/-- Embedding of `conv2d(ni, nf, ks, stride, padding, bias)`:
`if padding is None: padding = ks//2`, then `nn.Conv2d(ni, nf, ks, stride,
padding, bias)`.  The Python defaults are `ks=3, stride=1, padding=None,
bias=False`; call sites pass them explicitly. -/
def conv2d (ni nf ks stride : Nat) (padding : Option Nat) (bias : Bool) : Layer :=
  Layer.conv2dL ni nf ks stride
    (match padding with
     | none => ks / 2
     | some p => p) bias

/-- Embedding of `conv2d_relu(ni, nf, ks, stride, padding, bn)`:
`layers = [conv2d(ni, nf, ks, stride, padding), nn.ReLU()]`;
`if bn: layers.append(nn.BatchNorm2d(nf))`; `nn.Sequential(*layers)`. -/
def conv2d_relu (ni nf ks stride : Nat) (padding : Option Nat) (bn : Bool) : Layer :=
  Layer.seqL ([conv2d ni nf ks stride padding false, Layer.reluL]
    ++ (if bn then [Layer.batchNorm2dL nf] else []))

/-- Embedding of `conv2d_trans(ni, nf, ks, stride, padding)`:
`nn.ConvTranspose2d(ni, nf, ks, stride, padding)`. -/
def conv2d_trans (ni nf ks stride padding : Nat) : Layer :=
  Layer.convTranspose2dL ni nf ks stride padding

/-- Embedding of `simple_cnn(actns, kernel_szs, strides)`:
`layers = [conv2d_relu(actns[i], actns[i+1], kernel_szs[i],
stride=strides[i]) for i in range(len(strides))]`;
`layers.append(PoolFlatten())`; `nn.Sequential(*layers)`.
Out-of-range indexing (an `IndexError` in Python) is totalised with
default 0; the claims only quantify over inputs where every index is in
range. -/
def simple_cnn (actns kernel_szs strides : List Nat) : Layer :=
  Layer.seqL (((List.range strides.length).map (fun i =>
      conv2d_relu (actns.getD i 0) (actns.getD (i + 1) 0) (kernel_szs.getD i 0)
        (strides.getD i 0) none false))
    ++ [PoolFlatten])

/-- An abstract framework `Dataset`: something with `__len__` and
`__getitem__` returning an `(x, y)` pair. -/
structure PyDataset (α β : Type) where
  len : Nat
  getitem : Nat → α × β

/-- Embedding of the `DatasetTfm` dataclass: fields `ds` and `tfm`
(default `None`). -/
structure DatasetTfm (α β : Type) where
  ds : PyDataset α β
  tfm : Option (α → α)

/-- Embedding of `DatasetTfm.__len__`: `len(self.ds)`. -/
def DatasetTfm.lenD {α β : Type} (d : DatasetTfm α β) : Nat :=
  d.ds.len

/-- Embedding of `DatasetTfm.__getitem__`: `x,y = self.ds[idx]`;
`if self.tfm is not None: x = self.tfm(x)`; `return x,y`. -/
def DatasetTfm.getitem {α β : Type} (d : DatasetTfm α β) (idx : Nat) : α × β :=
  let p := d.ds.getitem idx
  match d.tfm with
  | some f => (f p.1, p.2)
  | none => (p.1, p.2)

/-- Method form of `DatasetTfm.__len__`, returning the post-call object
state next to the result (Python methods may mutate `self`; this one's body
contains no assignment, so the object comes back unchanged). -/
def DatasetTfm.lenM {α β : Type} (d : DatasetTfm α β) : DatasetTfm α β × Nat :=
  (d, d.lenD)

/-- Method form of `DatasetTfm.__getitem__`, returning the post-call object
state next to the result (the body contains no assignment to `self`). -/
def DatasetTfm.getitemM {α β : Type} (d : DatasetTfm α β) (idx : Nat) :
    DatasetTfm α β × (α × β) :=
  (d, d.getitem idx)

/-- Embedding of the `DeviceDataLoader` dataclass: fields `dl` (the
underlying loader, modelled by its list of batches) and `device`; `gen` is
the extra attribute that `__iter__` assigns (`self.gen = map(...)`), absent
(`none`) until then. -/
structure DeviceDataLoader (τ : Type) where
  dl : List (Tensors τ)
  device : Option Device
  gen : Option (List (Tensors τ))

/-- Construction of a `DeviceDataLoader(dl, device)`: the dataclass sets the
two declared fields; no `gen` attribute exists yet. -/
def DeviceDataLoader.init {τ : Type} (dl : List (Tensors τ))
    (device : Option Device) : DeviceDataLoader τ :=
  ⟨dl, device, none⟩

/-- Embedding of `DeviceDataLoader.__len__`: `len(self.dl)`. -/
def DeviceDataLoader.lenD {τ : Type} (d : DeviceDataLoader τ) : Nat :=
  d.dl.length

/-- Embedding of `DeviceDataLoader.proc_batch`: `to_device(b, self.device)`. -/
def DeviceDataLoader.proc_batch {τ : Type} (toT : τ → Device → τ) (dflt : Device)
    (d : DeviceDataLoader τ) (b : Tensors τ) : Tensors τ :=
  to_device toT dflt b d.device

/-- Method form of `DeviceDataLoader.__len__` (no assignment in the body,
so the object comes back unchanged). -/
def DeviceDataLoader.lenM {τ : Type} (d : DeviceDataLoader τ) :
    DeviceDataLoader τ × Nat :=
  (d, d.lenD)

/-- Embedding of `DeviceDataLoader.__iter__`:
`self.gen = map(self.proc_batch, self.dl); return iter(self.gen)`.  Returns
the post-call object state (with `gen` assigned) and the sequence of batches
the returned iterator yields, in order. -/
def DeviceDataLoader.iterM {τ : Type} (toT : τ → Device → τ) (dflt : Device)
    (d : DeviceDataLoader τ) : DeviceDataLoader τ × List (Tensors τ) :=
  let g := d.dl.map (fun b => DeviceDataLoader.proc_batch toT dflt d b)
  ({ d with gen := some g }, g)

/-- Spec-side description of what the claim says iterating
`DeviceDataLoader(dl, d)` yields: exactly the batches of `dl`, in the same
order and number, each transformed by `to_device(batch, d)` and nothing
else. -/
def deviceLoaderSpecYield {τ : Type} (toT : τ → Device → τ) (dflt : Device)
    (dl : List (Tensors τ)) (dev : Option Device) : List (Tensors τ) :=
  dl.map (fun b => to_device toT dflt b dev)

/-- Embedding of the `DataBunch` dataclass: fields `train_dl`, `valid_dl`,
`device` (default `None`); it defines no `__len__`, `__getitem__` or
`__iter__` of its own. -/
structure DataBunch (τ : Type) where
  train_dl : DeviceDataLoader τ
  valid_dl : DeviceDataLoader τ
  device : Option Device

/-- Left-to-right sequencing of a list of fallible results: the first raise
aborts the rest, as in a Python list comprehension. -/
def exceptSeqList {ε γ : Type} : List (Except ε γ) → Except ε (List γ)
  | [] => .ok []
  | x :: xs =>
    match x with
    | .error e => .error e
    | .ok r =>
      match exceptSeqList xs with
      | .error e => .error e
      | .ok rs => .ok (r :: rs)

/-- Embedding of `to_device` over a failing `Tensor.to`: `b.to(device)` may
raise; on a tuple or list the comprehension transfers the elements left to
right and the first raise aborts the rest and propagates. -/
def to_deviceE {τ ε : Type} (toTE : τ → Device → Except ε τ) (dflt : Device)
    (b : Tensors τ) (dev : Option Device) : Except ε (Tensors τ) :=
  let device := ifnone dev dflt
  match b with
  | .tensor t =>
    match toTE t device with
    | .error e => .error e
    | .ok t' => .ok (.tensor t')
  | .tuple ts =>
    match exceptSeqList (ts.attach.map (fun o => to_deviceE toTE dflt o.1 (some device))) with
    | .error e => .error e
    | .ok rs => .ok (.list rs)
  | .list ts =>
    match exceptSeqList (ts.attach.map (fun o => to_deviceE toTE dflt o.1 (some device))) with
    | .error e => .error e
    | .ok rs => .ok (.list rs)
termination_by sizeOf b
decreasing_by
  all_goals simp_wf
  all_goals have := List.sizeOf_lt_of_mem o.2
  all_goals omega

/-- Embedding of `DatasetTfm.__getitem__` over a failing framework:
`self.ds[idx]` may raise, and so may `self.tfm(x)`; a raise aborts the rest
of the body and propagates. -/
def DatasetTfm.getitemE {α β ε : Type} (ds_getitem : Nat → Except ε (α × β))
    (tfm : Option (α → Except ε α)) (idx : Nat) : Except ε (α × β) :=
  match ds_getitem idx with
  | .error e => .error e
  | .ok p =>
    match tfm with
    | some f =>
      match f p.1 with
      | .error e => .error e
      | .ok x => .ok (x, p.2)
    | none => .ok (p.1, p.2)

/-- Embedding of `DeviceDataLoader.proc_batch` over a failing `Tensor.to`:
`to_device(b, self.device)`, with a raise propagating. -/
def DeviceDataLoader.proc_batchE {τ ε : Type} (toTE : τ → Device → Except ε τ)
    (dflt : Device) (d : DeviceDataLoader τ) (b : Tensors τ) :
    Except ε (Tensors τ) :=
  to_deviceE toTE dflt b d.device

/-- Embedding of `conv2d_relu` over failing framework constructors:
`layers = [conv2d(...), nn.ReLU()]`, evaluated left to right, then
`if bn: layers.append(nn.BatchNorm2d(nf))`; a raise in any constructor
aborts the rest and propagates.  The three arguments are the results of the
`nn.Conv2d`, `nn.ReLU` and `nn.BatchNorm2d` calls. -/
def conv2d_reluE {ε : Type} (mkConv mkReLU mkBN : Except ε Layer) (bn : Bool) :
    Except ε Layer :=
  match mkConv with
  | .error e => .error e
  | .ok c =>
    match mkReLU with
    | .error e => .error e
    | .ok r =>
      if bn then
        match mkBN with
        | .error e => .error e
        | .ok b => .ok (Layer.seqL [c, r, b])
      else .ok (Layer.seqL [c, r])

/-- Embedding of `Learner.fit` over the failing framework:
`opt = opt_fn(self.model.parameters(), lr)` (whose construction may raise,
modelled by `mkOpt`), then `fit(epochs, self.model, loss_fn, opt,
self.data.train_dl, self.data.valid_dl)`; a raise in either step
propagates unchanged. -/
def Learner_fitE {τ π σ ε : Type} (mkOpt : Except ε Unit) (fw : FWE τ π σ ε)
    (epochs : Nat) (s : σ) (tdl vdl : List (Tensors τ × Tensors τ)) :
    Except (PyErr ε) σ × List (Ev τ) :=
  match mkOpt with
  | .error e => (.error (.framework e), [])
  | .ok _ => fitE fw epochs s tdl vdl

/-- A concrete trivial framework over unit tensors, used to evaluate the
embedding at concrete inputs: the forward pass and state mutators do
nothing and the loss is constantly 1. -/
def unitFW : FW Unit Unit Unit where
  forward := fun _ _ => ()
  loss_fn := fun _ _ => 1
  backward := id
  opt_step := id
  zero_grad := id
  train := id
  eval := id

/-- A concrete failing framework whose forward pass raises error `7`,
used to evaluate error propagation at a concrete input. -/
def failFW : FWE Unit Unit Unit Nat where
  forward := fun _ _ => .error 7
  loss_fn := fun _ _ => .ok 1
  backward := fun s => .ok s
  opt_step := fun s => .ok s
  zero_grad := fun s => .ok s
  train := fun s => .ok s
  eval := fun s => .ok s

theorem to_device_tensor {τ : Type} (toT : τ → Device → τ) (dflt : Device)
    (t : τ) (dev : Option Device) :
    to_device toT dflt (.tensor t) dev = .tensor (toT t (ifnone dev dflt)) := by
  simp [to_device]

theorem to_device_tuple {τ : Type} (toT : τ → Device → τ) (dflt : Device)
    (ts : List (Tensors τ)) (dev : Option Device) :
    to_device toT dflt (.tuple ts) dev =
      .list (ts.map (fun o => to_device toT dflt o (some (ifnone dev dflt)))) := by
  simp [to_device, List.attach_map_coe]

theorem to_device_list {τ : Type} (toT : τ → Device → τ) (dflt : Device)
    (ts : List (Tensors τ)) (dev : Option Device) :
    to_device toT dflt (.list ts) dev =
      .list (ts.map (fun o => to_device toT dflt o (some (ifnone dev dflt)))) := by
  simp [to_device, List.attach_map_coe]

theorem train_phase_trace {τ π σ : Type} (fw : FW τ π σ)
    (s : σ) (tdl : List (Tensors τ × Tensors τ)) :
    (train_phase fw s tdl).2 =
      (tdl.map (fun b => [Ev.forward (listify b.1), Ev.lossCompute (listify b.2),
        Ev.backward, Ev.optStep, Ev.zeroGrad])).flatten := by
  induction tdl generalizing s with
  | nil => simp [train_phase]
  | cons b rest ih => simp [train_phase, loss_batch, ih]

theorem valid_results_vals {τ π σ : Type} (fw : FW τ π σ)
    (s : σ) (vdl : List (Tensors τ × Tensors τ)) :
    (valid_results fw s vdl).1 =
      vdl.map (fun b => (loss_batch fw s b.1 b.2 false).1) := by
  induction vdl with
  | nil => simp [valid_results]
  | cons b rest ih => simp [valid_results, ih]

theorem valid_results_trace {τ π σ : Type} (fw : FW τ π σ)
    (s : σ) (vdl : List (Tensors τ × Tensors τ)) :
    (valid_results fw s vdl).2 =
      (vdl.map (fun b => [Ev.forward (listify b.1),
        Ev.lossCompute (listify b.2)])).flatten := by
  induction vdl with
  | nil => simp [valid_results]
  | cons b rest ih => simp [valid_results, loss_batch, ih]

theorem fit_epoch_eq {τ π σ : Type} (fw : FW τ π σ) (s : σ)
    (tdl vdl : List (Tensors τ × Tensors τ)) (epoch : Nat) (h : vdl ≠ []) :
    fit_epoch fw s tdl vdl epoch =
      (some (epoch_state fw tdl s), epoch_trace_spec fw s tdl vdl epoch) := by
  cases vdl with
  | nil => exact absurd rfl h
  | cons b rest =>
    simp [fit_epoch, epoch_state, epoch_trace_spec, train_phase_trace,
      valid_results_trace, valid_results_vals, valid_results, loss_batch]

theorem fit_epoch_empty {τ π σ : Type} (fw : FW τ π σ) (s : σ)
    (tdl : List (Tensors τ × Tensors τ)) (epoch : Nat) :
    fit_epoch fw s tdl [] epoch =
      (none, Ev.trainMode :: (train_phase fw (fw.train s) tdl).2
        ++ [Ev.evalMode, Ev.noGradBegin, Ev.noGradEnd]) := by
  simp [fit_epoch, valid_results]

theorem fit_eq {τ π σ : Type} (fw : FW τ π σ) (epochs : Nat) (s : σ)
    (tdl vdl : List (Tensors τ × Tensors τ)) (h : vdl ≠ []) :
    fit fw epochs s tdl vdl =
      (some (fit_state fw tdl s epochs),
       ((List.range epochs).map
         (fun e => epoch_trace_spec fw (fit_state fw tdl s e) tdl vdl e)).flatten) := by
  induction epochs with
  | zero => simp [fit, fit_state]
  | succ n ih =>
    have hstep : fit fw (n + 1) s tdl vdl =
        fit_step fw tdl vdl (fit fw n s tdl vdl) n := by
      simp [fit, List.range_succ]
    rw [hstep, ih]
    simp only [fit_step]
    simp only [fit_epoch_eq fw (fit_state fw tdl s n) tdl vdl n h]
    simp [fit_state, List.range_succ]

theorem foldl_fit_step_none {τ π σ : Type} (fw : FW τ π σ)
    (tdl vdl : List (Tensors τ × Tensors τ)) (l : List Nat) (tr : List (Ev τ)) :
    l.foldl (fit_step fw tdl vdl) (none, tr) = (none, tr) := by
  induction l with
  | nil => rfl
  | cons x xs ih => simpa [fit_step] using ih

theorem fit_empty_aborts {τ π σ : Type} (fw : FW τ π σ) (epochs : Nat) (s : σ)
    (tdl : List (Tensors τ × Tensors τ)) (h : 1 ≤ epochs) :
    (fit fw epochs s tdl []).1 = none ∧
    ∀ e q, Ev.printLoss e q ∉ (fit fw epochs s tdl []).2 := by
  obtain ⟨n, rfl⟩ : ∃ n, epochs = n + 1 := ⟨epochs - 1, by omega⟩
  have hfit : fit fw (n + 1) s tdl [] =
      (none, Ev.trainMode :: (train_phase fw (fw.train s) tdl).2
        ++ [Ev.evalMode, Ev.noGradBegin, Ev.noGradEnd]) := by
    rw [fit, List.range_succ_eq_map, List.foldl_cons]
    have h0 : fit_step fw tdl [] (some s, []) 0 =
        (none, Ev.trainMode :: (train_phase fw (fw.train s) tdl).2
          ++ [Ev.evalMode, Ev.noGradBegin, Ev.noGradEnd]) := by
      simp [fit_step, fit_epoch_empty]
    rw [h0]
    exact foldl_fit_step_none fw tdl [] _ _
  rw [hfit]
  refine ⟨rfl, ?_⟩
  intro e q hq
  simp [train_phase_trace] at hq
  obtain ⟨l, ⟨a, b, -, rfl⟩, hmem⟩ := hq
  simp at hmem

/-- C1 counterexample: on an empty `valid_dl` with `epochs = 1`, `fit` does
not complete the iteration with a printed validation loss: the unpacking
`losses,nums = zip(*[])` raises `ValueError`, so `fit` aborts (result
`none`) and its trace contains no `printLoss` event at all — refuting the
claim as stated, which asserts every iteration ends by printing
`sum(losses*nums)/sum(nums)`. -/
theorem fit_empty_valid_aborts :
    fit unitFW 1 () ([] : List (Tensors Unit × Tensors Unit)) [] =
      (none, [Ev.trainMode, Ev.evalMode, Ev.noGradBegin, Ev.noGradEnd]) ∧
    Ev.printLoss 0 (weighted_val_loss []) ∉
      (fit unitFW 1 () ([] : List (Tensors Unit × Tensors Unit)) []).2 := by
  constructor
  · rfl
  · intro hmem
    have hc : fit unitFW 1 () ([] : List (Tensors Unit × Tensors Unit)) [] =
        (none, [Ev.trainMode, Ev.evalMode, Ev.noGradBegin, Ev.noGradEnd]) := rfl
    rw [hc] at hmem
    simp at hmem

/-- C1 (amended): for every integer `epochs >= 0`, provided `valid_dl` is
nonempty, `fit(epochs, model, loss_fn, opt, train_dl, valid_dl)` performs
exactly `epochs` iterations, each consisting of: putting the model in
training mode, calling `loss_batch` with the optimizer on every batch of
`train_dl` in order, then putting the model in evaluation mode, computing
`loss_batch` without the optimizer (under no-gradient mode) on every batch
of `valid_dl`, and printing a validation loss equal to
`sum(losses*nums)/sum(nums)` over the per-batch results (all spelled out by
`epoch_trace_spec`, one copy per epoch); when `valid_dl` is empty and
`epochs >= 1`, the unpacking `losses,nums = zip(*[])` raises `ValueError`
during the first iteration, so `fit` aborts without printing anything. -/
theorem fit_performs_epoch_iterations {τ π σ : Type} (fw : FW τ π σ)
    (epochs : Nat) (s : σ) (tdl vdl : List (Tensors τ × Tensors τ)) :
    (vdl ≠ [] →
      fit fw epochs s tdl vdl =
        (some (fit_state fw tdl s epochs),
         ((List.range epochs).map
           (fun e => epoch_trace_spec fw (fit_state fw tdl s e) tdl vdl e)).flatten)) ∧
    (vdl = [] → 1 ≤ epochs →
      (fit fw epochs s tdl vdl).1 = none ∧
      ∀ e q, Ev.printLoss e q ∉ (fit fw epochs s tdl vdl).2) :=
  ⟨fun h => fit_eq fw epochs s tdl vdl h,
   fun hv he => hv ▸ fit_empty_aborts fw epochs s tdl he⟩

theorem fit_performs_epoch_iterations_witness :
    ([((Tensors.tensor () : Tensors Unit), (Tensors.tensor () : Tensors Unit))] ≠ []) ∧
    fit unitFW 1 () [] [(Tensors.tensor (), Tensors.tensor ())] =
      (some (fit_state unitFW [] () 1),
       ((List.range 1).map (fun e => epoch_trace_spec unitFW
         (fit_state unitFW [] () e) [] [(Tensors.tensor (), Tensors.tensor ())] e)).flatten) := by
  constructor
  · simp
  · exact (fit_performs_epoch_iterations unitFW 1 ()
      [] [(Tensors.tensor (), Tensors.tensor ())]).1 (by simp)

/-- C2: for every model state, batch `(xb, yb)`, loss function and present
optimizer, `loss_batch` performs exactly the sequence forward pass, loss
computation, backward pass, one optimizer step, one zero-gradient reset,
each exactly once and in that order (the trace is exactly those five
events), and returns the pair (scalar loss value, length of the wrapped
target list). -/
theorem loss_batch_with_opt_sequence {τ π σ : Type} (fw : FW τ π σ) (s : σ)
    (xb yb : Tensors τ) :
    loss_batch fw s xb yb true =
      ((fw.loss_fn (fw.forward s (listify xb)) (listify yb), (listify yb).length),
       fw.zero_grad (fw.opt_step (fw.backward s)),
       [Ev.forward (listify xb), Ev.lossCompute (listify yb),
        Ev.backward, Ev.optStep, Ev.zeroGrad]) := by
  simp [loss_batch]

/-- C9: for every model state, batch and loss function, `loss_batch` with
`opt = None` performs only the forward pass and the loss computation: its
trace is exactly those two events (so it contains no backward pass, no
optimizer step, no zero-gradient reset), and the model/optimizer state
comes back unchanged. -/
theorem loss_batch_no_opt_frame {τ π σ : Type} (fw : FW τ π σ) (s : σ)
    (xb yb : Tensors τ) :
    loss_batch fw s xb yb false =
      ((fw.loss_fn (fw.forward s (listify xb)) (listify yb), (listify yb).length),
       s, [Ev.forward (listify xb), Ev.lossCompute (listify yb)]) ∧
    (loss_batch fw s xb yb false).2.1 = s ∧
    Ev.backward ∉ (loss_batch fw s xb yb false).2.2 ∧
    Ev.optStep ∉ (loss_batch fw s xb yb false).2.2 ∧
    Ev.zeroGrad ∉ (loss_batch fw s xb yb false).2.2 := by
  refine ⟨by simp [loss_batch], by simp [loss_batch], ?_, ?_, ?_⟩ <;>
    simp [loss_batch]

/-- C4: for every dataset `ds`, transform `tfm` and index `idx`,
`DatasetTfm(ds, tfm)` has the same length as `ds`, and its `idx`-th element
is `(tfm(x), y)` where `(x, y) = ds[idx]` when `tfm` is not None, and
`(x, y)` unchanged when `tfm` is None; the target `y` is never
transformed. -/
theorem DatasetTfm_len_getitem {α β : Type} (ds : PyDataset α β)
    (tfm : Option (α → α)) (idx : Nat) :
    (DatasetTfm.mk ds tfm).lenD = ds.len ∧
    (DatasetTfm.mk ds tfm).getitem idx =
      (match tfm with
       | some f => (f (ds.getitem idx).1, (ds.getitem idx).2)
       | none => ds.getitem idx) ∧
    ((DatasetTfm.mk ds tfm).getitem idx).2 = (ds.getitem idx).2 := by
  refine ⟨rfl, ?_, ?_⟩ <;> cases tfm <;>
    simp [DatasetTfm.getitem, DatasetTfm.lenD]

/-- C5: for every underlying loader `dl` and device `d`, iterating
`DeviceDataLoader(dl, d)` yields exactly the batches of `dl`, in the same
order and in the same number, each transformed by `to_device(batch, d)` and
nothing else (`deviceLoaderSpecYield`, the spec-side description), and
`len(DeviceDataLoader(dl, d))` equals `len(dl)`. -/
theorem DeviceDataLoader_iter_refines {τ : Type} (toT : τ → Device → τ)
    (dflt : Device) (dl : List (Tensors τ)) (dev : Option Device)
    (g : Option (List (Tensors τ))) :
    (DeviceDataLoader.iterM toT dflt ⟨dl, dev, g⟩).2 =
      deviceLoaderSpecYield toT dflt dl dev ∧
    (DeviceDataLoader.iterM toT dflt ⟨dl, dev, g⟩).2.length = dl.length ∧
    (DeviceDataLoader.mk dl dev g).lenD = dl.length := by
  refine ⟨rfl, ?_, rfl⟩
  simp [DeviceDataLoader.iterM]

/-- C10: `to_device(b, None)` places `b` on the module-level default device
(`default_device`, chosen as CUDA if available else CPU): it behaves exactly
as `to_device(b, default_device)`; and on every tuple or list input,
`to_device` returns a Python list of the recursively transferred elements,
so tuple inputs come back as lists rather than tuples. -/
theorem to_device_default_and_tuple_list {τ : Type} (toT : τ → Device → τ)
    (cuda : Bool) (b : Tensors τ) (dflt : Device) (ts : List (Tensors τ))
    (dev : Option Device) :
    to_device toT (default_device cuda) b none
      = to_device toT (default_device cuda) b (some (default_device cuda)) ∧
    default_device true = Device.cuda ∧
    default_device false = Device.cpu ∧
    to_device toT dflt (.tuple ts) dev =
      .list (ts.map (fun o => to_device toT dflt o (some (ifnone dev dflt)))) ∧
    to_device toT dflt (.list ts) dev =
      .list (ts.map (fun o => to_device toT dflt o (some (ifnone dev dflt)))) := by
  refine ⟨?_, rfl, rfl, to_device_tuple toT dflt ts dev, to_device_list toT dflt ts dev⟩
  cases b <;> simp [to_device_tensor, to_device_tuple, to_device_list, ifnone]

/-- C6 counterexample: `DeviceDataLoader.__iter__` assigns the fresh
generator to `self.gen`, so after calling it on a freshly constructed
loader the object differs from the constructed one: the wrapper does
maintain internal state beyond its constructor fields. -/
theorem DeviceDataLoader_iter_mutates :
    (DeviceDataLoader.iterM (fun (t : Unit) _ => t) Device.cpu
        (DeviceDataLoader.init [] none)).1 ≠ DeviceDataLoader.init [] none := by
  intro h
  have hg := congrArg DeviceDataLoader.gen h
  simp [DeviceDataLoader.iterM, DeviceDataLoader.init] at hg

/-- C6 (amended): the constructor-set fields are preserved by every
operation: `DatasetTfm`'s `ds`/`tfm` by `__len__` and `__getitem__`,
`DeviceDataLoader`'s `dl`/`device` by `__len__` and `__iter__`, and
`DataBunch`'s `train_dl`/`valid_dl`/`device` are exactly what construction
set; but `DeviceDataLoader.__iter__` additionally stores the created
generator in the extra attribute `gen`, so that wrapper is not free of
internal state beyond its constructor fields. -/
theorem wrapper_fields_preserved {α β τ : Type} (d : DatasetTfm α β)
    (idx : Nat) (l : DeviceDataLoader τ) (toT : τ → Device → τ) (dflt : Device)
    (tdl vdl : DeviceDataLoader τ) (dev : Option Device) :
    (d.lenM).1 = d ∧
    (d.getitemM idx).1 = d ∧
    (l.lenM).1 = l ∧
    (DeviceDataLoader.iterM toT dflt l).1.dl = l.dl ∧
    (DeviceDataLoader.iterM toT dflt l).1.device = l.device ∧
    (DeviceDataLoader.iterM toT dflt l).1.gen =
      some (l.dl.map (fun b => DeviceDataLoader.proc_batch toT dflt l b)) ∧
    (DataBunch.mk tdl vdl dev).train_dl = tdl ∧
    (DataBunch.mk tdl vdl dev).valid_dl = vdl ∧
    (DataBunch.mk tdl vdl dev).device = dev :=
  ⟨rfl, rfl, rfl, rfl, rfl, rfl, rfl, rfl, rfl⟩

theorem loss_batch_num {τ π σ : Type} (fw : FW τ π σ) (s : σ)
    (xb yb : Tensors τ) (opt : Bool) :
    (loss_batch fw s xb yb opt).1.2 = (listify yb).length := by
  cases opt <;> simp [loss_batch]

theorem listify_length_of_not_listy {τ : Type} (y : Tensors τ)
    (h : is_listy y = false) : (listify y).length = 1 := by
  cases y <;> simp_all [is_listy, listify]

theorem sum_weighted_of_one (rs : List (ℚ × Nat)) :
    (∀ p ∈ rs, p.2 = 1) →
    (rs.map (fun p => p.1 * (p.2 : ℚ))).sum = (rs.map (fun p => p.1)).sum := by
  induction rs with
  | nil => simp
  | cons p rest ih =>
    intro h
    have h1 := h p (List.mem_cons_self p rest)
    have ih' := ih (fun q hq => h q (List.mem_cons_of_mem p hq))
    simp [h1, ih']

theorem sum_nums_of_one (rs : List (ℚ × Nat)) :
    (∀ p ∈ rs, p.2 = 1) →
    (rs.map (fun p => (p.2 : ℚ))).sum = (rs.length : ℚ) := by
  induction rs with
  | nil => simp
  | cons p rest ih =>
    intro h
    have h1 := h p (List.mem_cons_self p rest)
    have ih' := ih (fun q hq => h q (List.mem_cons_of_mem p hq))
    simp [h1, ih']
    ring

theorem weighted_val_loss_all_one (rs : List (ℚ × Nat))
    (h : ∀ p ∈ rs, p.2 = 1) :
    weighted_val_loss rs = (rs.map (fun p => p.1)).sum / (rs.length : ℚ) := by
  rw [weighted_val_loss, sum_weighted_of_one rs h, sum_nums_of_one rs h]

/-- C3: for every batch whose target `yb` is not a tuple or list, the second
component of the pair returned by `loss_batch` equals `1` (the length of the
wrapped target list, not the batch size); consequently, whenever `valid_dl`
is nonempty (so that `fit` prints at all) and every target of `valid_dl` is
non-listy, the validation loss `fit` prints at each epoch equals the
unweighted arithmetic mean of the per-batch losses. -/
theorem loss_batch_num_one_and_unweighted_mean {τ π σ : Type} (fw : FW τ π σ)
    (s : σ) (xb : Tensors τ) (tdl vdl : List (Tensors τ × Tensors τ)) :
    (∀ (t : τ) (opt : Bool), (loss_batch fw s xb (.tensor t) opt).1.2 = 1) ∧
    ((∀ b ∈ vdl, is_listy b.2 = false) → vdl ≠ [] →
      ∀ epochs e, e < epochs →
        Ev.printLoss e
          ((vdl.map (fun b =>
              (loss_batch fw (fit_state fw tdl s (e + 1)) b.1 b.2 false).1.1)).sum
            / (vdl.length : ℚ))
          ∈ (fit fw epochs s tdl vdl).2) := by
  constructor
  · intro t opt
    rw [loss_batch_num]
    rfl
  · intro h hne epochs e he
    rw [fit_eq fw epochs s tdl vdl hne]
    apply List.mem_flatten.mpr
    refine ⟨epoch_trace_spec fw (fit_state fw tdl s e) tdl vdl e,
      List.mem_map_of_mem _ (List.mem_range.mpr he), ?_⟩
    have hone : ∀ p ∈ vdl.map (fun b =>
        (loss_batch fw (epoch_state fw tdl (fit_state fw tdl s e)) b.1 b.2 false).1),
        p.2 = 1 := by
      intro p hp
      obtain ⟨b, hb, rfl⟩ := List.mem_map.mp hp
      rw [loss_batch_num]
      exact listify_length_of_not_listy b.2 (h b hb)
    have hval : weighted_val_loss (vdl.map (fun b =>
        (loss_batch fw (epoch_state fw tdl (fit_state fw tdl s e)) b.1 b.2 false).1))
      = (vdl.map (fun b =>
            (loss_batch fw (fit_state fw tdl s (e + 1)) b.1 b.2 false).1.1)).sum
          / (vdl.length : ℚ) := by
      rw [weighted_val_loss_all_one _ hone]
      simp only [List.map_map, List.length_map, fit_state]
      rfl
    simp [epoch_trace_spec, hval]

theorem loss_batch_num_one_and_unweighted_mean_witness :
    (∀ b ∈ [((Tensors.tensor () : Tensors Unit), (Tensors.tensor () : Tensors Unit))],
        is_listy b.2 = false) ∧
    ([((Tensors.tensor () : Tensors Unit), (Tensors.tensor () : Tensors Unit))] ≠ []) ∧
    Ev.printLoss 0 1 ∈ (fit unitFW 1 ()
      ([] : List (Tensors Unit × Tensors Unit))
      [(Tensors.tensor (), Tensors.tensor ())]).2 := by
  have hnl : ∀ b ∈ [((Tensors.tensor () : Tensors Unit), (Tensors.tensor () : Tensors Unit))],
      is_listy b.2 = false := by
    intro b hb
    simp at hb
    rw [hb]
    rfl
  refine ⟨hnl, by simp, ?_⟩
  have h := (loss_batch_num_one_and_unweighted_mean unitFW () (Tensors.tensor ())
      [] [(Tensors.tensor (), Tensors.tensor ())]).2 hnl (by simp) 1 0 (by omega)
  simpa [loss_batch, unitFW] using h

/-- C8: for `n = len(strides)`, `len(actns) >= n + 1` and
`len(kernel_szs) >= n`, `simple_cnn(actns, kernel_szs, strides)` is a
sequential model of exactly `n` convolution-plus-ReLU blocks followed by one
adaptive-average-pool-and-flatten block (`PoolFlatten`), where the `i`-th
convolution has `actns[i]` input channels, `actns[i+1]` output channels,
kernel size `kernel_szs[i]`, stride `strides[i]`, padding
`kernel_szs[i] // 2`, and no bias. -/
theorem simple_cnn_structure (actns kernel_szs strides : List Nat)
    (hA : strides.length + 1 ≤ actns.length)
    (hK : strides.length ≤ kernel_szs.length) :
    ∃ blocks : List Layer,
      simple_cnn actns kernel_szs strides = Layer.seqL (blocks ++ [PoolFlatten]) ∧
      blocks.length = strides.length ∧
      ∀ i a a' k st, actns[i]? = some a → actns[i + 1]? = some a' →
        kernel_szs[i]? = some k → strides[i]? = some st →
          blocks[i]? = some (Layer.seqL
            [Layer.conv2dL a a' k st (k / 2) false, Layer.reluL]) := by
  refine ⟨(List.range strides.length).map (fun i =>
      conv2d_relu (actns.getD i 0) (actns.getD (i + 1) 0) (kernel_szs.getD i 0)
        (strides.getD i 0) none false), rfl, by simp, ?_⟩
  intro i a a' k st ha ha' hk hst
  have hi : i < strides.length := by
    by_contra hlt
    rw [List.getElem?_eq_none (by omega)] at hst
    exact Option.noConfusion hst
  rw [List.getElem?_map, List.getElem?_range hi]
  simp only [Option.map_some']
  have hgd : ∀ (l : List Nat) (j : Nat) (v : Nat), l[j]? = some v → l.getD j 0 = v := by
    intro l j v hv
    rw [List.getD_eq_getElem?_getD, hv]
    rfl
  rw [conv2d_relu, conv2d, hgd actns i a ha, hgd actns (i + 1) a' ha',
    hgd kernel_szs i k hk, hgd strides i st hst]
  rfl

theorem simple_cnn_structure_witness :
    ([2, 2, 2] : List Nat).length + 1 ≤ ([1, 16, 16, 10] : List Nat).length ∧
    ([2, 2, 2] : List Nat).length ≤ ([3, 3, 3] : List Nat).length ∧
    (∃ blocks : List Layer,
      simple_cnn [1, 16, 16, 10] [3, 3, 3] [2, 2, 2] =
        Layer.seqL (blocks ++ [PoolFlatten]) ∧
      blocks.length = ([2, 2, 2] : List Nat).length ∧
      ∀ i a a' k st, ([1, 16, 16, 10] : List Nat)[i]? = some a →
        ([1, 16, 16, 10] : List Nat)[i + 1]? = some a' →
        ([3, 3, 3] : List Nat)[i]? = some k →
        ([2, 2, 2] : List Nat)[i]? = some st →
          blocks[i]? = some (Layer.seqL
            [Layer.conv2dL a a' k st (k / 2) false, Layer.reluL])) :=
  ⟨by decide, by decide,
   simple_cnn_structure [1, 16, 16, 10] [3, 3, 3] [2, 2, 2] (by decide) (by decide)⟩

theorem foldl_fit_stepE_error {τ π σ ε : Type} (fw : FWE τ π σ ε)
    (tdl vdl : List (Tensors τ × Tensors τ)) (l : List Nat) (pe : PyErr ε)
    (tr : List (Ev τ)) :
    l.foldl (fit_stepE fw tdl vdl) (.error pe, tr) = (.error pe, tr) := by
  induction l with
  | nil => rfl
  | cons x xs ih => simpa [fit_stepE] using ih

theorem train_phaseE_mid_error {τ π σ ε : Type} (fw : FWE τ π σ ε)
    (xb yb : Tensors τ) (post : List (Tensors τ × Tensors τ)) (e : ε)
    (tr : List (Ev τ)) :
    ∀ (pre : List (Tensors τ × Tensors τ)) (s s' : σ) (trp : List (Ev τ)),
      train_phaseE fw s pre = (.ok s', trp) →
      loss_batchE fw s' xb yb true = (.error e, tr) →
      train_phaseE fw s (pre ++ (xb, yb) :: post) = (.error e, trp ++ tr) := by
  intro pre
  induction pre with
  | nil =>
    intro s s' trp h1 h2
    simp only [train_phaseE, Prod.mk.injEq, Except.ok.injEq] at h1
    obtain ⟨h1a, h1b⟩ := h1
    subst h1a
    subst h1b
    simp [train_phaseE, h2]
  | cons b rest ih =>
    intro s s' trp h1 h2
    obtain ⟨xb', yb'⟩ := b
    rw [List.cons_append]
    rcases hlb : loss_batchE fw s xb' yb' true with ⟨r1, tr1⟩
    cases r1 with
    | error e' =>
      simp [train_phaseE, hlb] at h1
    | ok r =>
      rcases hrest : train_phaseE fw r.2 rest with ⟨rr, trr⟩
      simp only [train_phaseE, hlb, hrest, Prod.mk.injEq] at h1
      obtain ⟨h1a, h1b⟩ := h1
      subst h1b
      have hmid := ih r.2 s' trr (by rw [hrest, h1a]) h2
      simp only [train_phaseE, hlb]
      rw [hmid]
      simp [List.append_assoc]

theorem valid_resultsE_mid_error {τ π σ ε : Type} (fw : FWE τ π σ ε)
    (xb yb : Tensors τ) (post : List (Tensors τ × Tensors τ)) (e : ε)
    (tr : List (Ev τ)) (s : σ) :
    ∀ (pre : List (Tensors τ × Tensors τ)) (rs : List (ℚ × Nat)) (trv : List (Ev τ)),
      valid_resultsE fw s pre = (.ok rs, trv) →
      loss_batchE fw s xb yb false = (.error e, tr) →
      valid_resultsE fw s (pre ++ (xb, yb) :: post) = (.error e, trv ++ tr) := by
  intro pre
  induction pre with
  | nil =>
    intro rs trv h1 h2
    simp only [valid_resultsE, Prod.mk.injEq, Except.ok.injEq] at h1
    obtain ⟨h1a, h1b⟩ := h1
    subst h1b
    simp [valid_resultsE, h2]
  | cons b rest ih =>
    intro rs trv h1 h2
    obtain ⟨xb', yb'⟩ := b
    rw [List.cons_append]
    rcases hlb : loss_batchE fw s xb' yb' false with ⟨r1, tr1⟩
    cases r1 with
    | error e' =>
      simp [valid_resultsE, hlb] at h1
    | ok r =>
      rcases hrest : valid_resultsE fw s rest with ⟨rr, trr⟩
      cases rr with
      | error e' =>
        simp [valid_resultsE, hlb, hrest] at h1
      | ok rs' =>
        simp only [valid_resultsE, hlb, hrest, Prod.mk.injEq, Except.ok.injEq] at h1
        obtain ⟨h1a, h1b⟩ := h1
        subst h1b
        have hmid := ih rs' trr (by rw [hrest]) h2
        simp only [valid_resultsE, hlb]
        rw [hmid]
        simp [List.append_assoc]

theorem fitE_epoch_error_propagates {τ π σ ε : Type} (fw : FWE τ π σ ε)
    (s : σ) (tdl vdl : List (Tensors τ × Tensors τ)) (k m : Nat) (s' : σ)
    (trk tr : List (Ev τ)) (pe : PyErr ε) :
    fitE fw k s tdl vdl = (.ok s', trk) →
    fit_epochE fw s' tdl vdl k = (.error pe, tr) →
    fitE fw (k + 1 + m) s tdl vdl = (.error pe, trk ++ tr) := by
  intro h1 h2
  have hk : k + 1 + m = k + (1 + m) := by omega
  rw [hk, fitE, List.range_add, List.foldl_append]
  have hbase : (List.range k).foldl (fit_stepE fw tdl vdl)
      ((Except.ok s : Except (PyErr ε) σ), ([] : List (Ev τ))) = (.ok s', trk) := h1
  rw [hbase]
  have h1m : 1 + m = m + 1 := Nat.add_comm 1 m
  rw [h1m, List.range_succ_eq_map, List.map_cons, List.foldl_cons]
  have hstep : fit_stepE fw tdl vdl (.ok s', trk) (k + 0) = (.error pe, trk ++ tr) := by
    simp [fit_stepE, h2]
  rw [hstep]
  exact foldl_fit_stepE_error fw tdl vdl _ pe _

/-- C7: no operation in the notebook catches, suppresses or converts an
exception.  In `loss_batch`, whichever framework call raises (forward pass,
loss computation, backward pass, optimizer step, zero-gradient reset), the
error value is returned unchanged and the trace stops at the failing call.
In `fit`, a `loss_batch` failure at any position of the training loop or
the validation comprehension aborts the remaining batches with the same
error, failing `model.train()` / `model.eval()` calls abort the epoch where
they occur, and a failing epoch (at any index) aborts `fit` with the same
exception and no further epochs.  In the dataset wrapper, a raising
`ds[idx]` or `tfm(x)` propagates out of `__getitem__`; in the device
wrappers, a raising `Tensor.to` propagates out of `to_device` and
`proc_batch`; in the layer factory `conv2d_relu`, a raising constructor
aborts the remaining constructors; and `Learner.fit` propagates both a
failing optimizer construction and whatever `fit` raises. -/
theorem glue_propagates_failures {τ π σ α β ε : Type} (fw : FWE τ π σ ε) :
    (∀ (s : σ) (xb yb : Tensors τ) (opt : Bool) (e : ε),
       fw.forward s (listify xb) = .error e →
       loss_batchE fw s xb yb opt = (.error e, [Ev.forward (listify xb)])) ∧
    (∀ (s : σ) (xb yb : Tensors τ) (opt : Bool) pred (e : ε),
       fw.forward s (listify xb) = .ok pred →
       fw.loss_fn pred (listify yb) = .error e →
       loss_batchE fw s xb yb opt =
         (.error e, [Ev.forward (listify xb), Ev.lossCompute (listify yb)])) ∧
    (∀ (s : σ) (xb yb : Tensors τ) pred loss (e : ε),
       fw.forward s (listify xb) = .ok pred →
       fw.loss_fn pred (listify yb) = .ok loss →
       fw.backward s = .error e →
       loss_batchE fw s xb yb true =
         (.error e, [Ev.forward (listify xb), Ev.lossCompute (listify yb),
           Ev.backward])) ∧
    (∀ (s : σ) (xb yb : Tensors τ) pred loss s1 (e : ε),
       fw.forward s (listify xb) = .ok pred →
       fw.loss_fn pred (listify yb) = .ok loss →
       fw.backward s = .ok s1 → fw.opt_step s1 = .error e →
       loss_batchE fw s xb yb true =
         (.error e, [Ev.forward (listify xb), Ev.lossCompute (listify yb),
           Ev.backward, Ev.optStep])) ∧
    (∀ (s : σ) (xb yb : Tensors τ) pred loss s1 s2 (e : ε),
       fw.forward s (listify xb) = .ok pred →
       fw.loss_fn pred (listify yb) = .ok loss →
       fw.backward s = .ok s1 → fw.opt_step s1 = .ok s2 →
       fw.zero_grad s2 = .error e →
       loss_batchE fw s xb yb true =
         (.error e, [Ev.forward (listify xb), Ev.lossCompute (listify yb),
           Ev.backward, Ev.optStep, Ev.zeroGrad])) ∧
    (∀ (s s' : σ) (pre post : List (Tensors τ × Tensors τ)) (xb yb : Tensors τ)
       (trp tr : List (Ev τ)) (e : ε),
       train_phaseE fw s pre = (.ok s', trp) →
       loss_batchE fw s' xb yb true = (.error e, tr) →
       train_phaseE fw s (pre ++ (xb, yb) :: post) = (.error e, trp ++ tr)) ∧
    (∀ (s : σ) (pre post : List (Tensors τ × Tensors τ)) (rs : List (ℚ × Nat))
       (xb yb : Tensors τ) (trv tr : List (Ev τ)) (e : ε),
       valid_resultsE fw s pre = (.ok rs, trv) →
       loss_batchE fw s xb yb false = (.error e, tr) →
       valid_resultsE fw s (pre ++ (xb, yb) :: post) = (.error e, trv ++ tr)) ∧
    (∀ (s : σ) (tdl vdl : List (Tensors τ × Tensors τ)) (epoch : Nat) (e : ε),
       fw.train s = .error e →
       fit_epochE fw s tdl vdl epoch = (.error (.framework e), [Ev.trainMode])) ∧
    (∀ (s s1 s2 : σ) (tdl vdl : List (Tensors τ × Tensors τ)) (epoch : Nat)
       (tr : List (Ev τ)) (e : ε),
       fw.train s = .ok s1 → train_phaseE fw s1 tdl = (.ok s2, tr) →
       fw.eval s2 = .error e →
       fit_epochE fw s tdl vdl epoch =
         (.error (.framework e), Ev.trainMode :: tr ++ [Ev.evalMode])) ∧
    (∀ (s s1 s2 s3 : σ) (tdl vdl : List (Tensors τ × Tensors τ)) (epoch : Nat)
       (tr vtr : List (Ev τ)) (e : ε),
       fw.train s = .ok s1 → train_phaseE fw s1 tdl = (.ok s2, tr) →
       fw.eval s2 = .ok s3 → valid_resultsE fw s3 vdl = (.error e, vtr) →
       fit_epochE fw s tdl vdl epoch =
         (.error (.framework e),
          Ev.trainMode :: tr ++ [Ev.evalMode, Ev.noGradBegin] ++ vtr)) ∧
    (∀ (s s' : σ) (tdl vdl : List (Tensors τ × Tensors τ)) (k m : Nat)
       (trk tr : List (Ev τ)) (pe : PyErr ε),
       fitE fw k s tdl vdl = (.ok s', trk) →
       fit_epochE fw s' tdl vdl k = (.error pe, tr) →
       fitE fw (k + 1 + m) s tdl vdl = (.error pe, trk ++ tr)) ∧
    (∀ (dsg : Nat → Except ε (α × β)) (tfmE : Option (α → Except ε α))
       (idx : Nat) (e : ε),
       dsg idx = .error e → DatasetTfm.getitemE dsg tfmE idx = .error e) ∧
    (∀ (dsg : Nat → Except ε (α × β)) (f : α → Except ε α) (idx : Nat)
       (p : α × β) (e : ε),
       dsg idx = .ok p → f p.1 = .error e →
       DatasetTfm.getitemE dsg (some f) idx = .error e) ∧
    (∀ (toTE : τ → Device → Except ε τ) (dflt : Device) (t : τ)
       (dev : Option Device) (e : ε),
       toTE t (ifnone dev dflt) = .error e →
       to_deviceE toTE dflt (.tensor t) dev = .error e) ∧
    (∀ (toTE : τ → Device → Except ε τ) (dflt : Device) (o : Tensors τ)
       (rest : List (Tensors τ)) (dev : Option Device) (e : ε),
       to_deviceE toTE dflt o (some (ifnone dev dflt)) = .error e →
       to_deviceE toTE dflt (.list (o :: rest)) dev = .error e) ∧
    (∀ (toTE : τ → Device → Except ε τ) (dflt : Device) (d : DeviceDataLoader τ)
       (b : Tensors τ) (e : ε),
       to_deviceE toTE dflt b d.device = .error e →
       DeviceDataLoader.proc_batchE toTE dflt d b = .error e) ∧
    (∀ (mkReLU mkBN : Except ε Layer) (bn : Bool) (e : ε),
       conv2d_reluE (.error e) mkReLU mkBN bn = .error e) ∧
    (∀ (c : Layer) (mkBN : Except ε Layer) (bn : Bool) (e : ε),
       conv2d_reluE (.ok c) (.error e) mkBN bn = .error e) ∧
    (∀ (c r : Layer) (e : ε),
       conv2d_reluE (.ok c) (.ok r) (.error e) true = .error e) ∧
    (∀ (epochs : Nat) (s : σ) (tdl vdl : List (Tensors τ × Tensors τ)) (e : ε),
       Learner_fitE (.error e) fw epochs s tdl vdl = (.error (.framework e), [])) ∧
    (∀ (epochs : Nat) (s : σ) (tdl vdl : List (Tensors τ × Tensors τ)),
       Learner_fitE (.ok ()) fw epochs s tdl vdl = fitE fw epochs s tdl vdl) := by
  refine ⟨?_, ?_, ?_, ?_, ?_, ?_, ?_, ?_, ?_, ?_, ?_, ?_, ?_, ?_, ?_, ?_, ?_,
    ?_, ?_, ?_, ?_⟩
  · intro s xb yb opt e h
    simp [loss_batchE, h]
  · intro s xb yb opt pred e h1 h2
    simp [loss_batchE, h1, h2]
  · intro s xb yb pred loss e h1 h2 h3
    simp [loss_batchE, h1, h2, h3]
  · intro s xb yb pred loss s1 e h1 h2 h3 h4
    simp [loss_batchE, h1, h2, h3, h4]
  · intro s xb yb pred loss s1 s2 e h1 h2 h3 h4 h5
    simp [loss_batchE, h1, h2, h3, h4, h5]
  · intro s s' pre post xb yb trp tr e h1 h2
    exact train_phaseE_mid_error fw xb yb post e tr pre s s' trp h1 h2
  · intro s pre post rs xb yb trv tr e h1 h2
    exact valid_resultsE_mid_error fw xb yb post e tr s pre rs trv h1 h2
  · intro s tdl vdl epoch e h
    simp [fit_epochE, h]
  · intro s s1 s2 tdl vdl epoch tr e h1 h2 h3
    simp [fit_epochE, h1, h2, h3]
  · intro s s1 s2 s3 tdl vdl epoch tr vtr e h1 h2 h3 h4
    simp [fit_epochE, h1, h2, h3, h4]
  · intro s s' tdl vdl k m trk tr pe h1 h2
    exact fitE_epoch_error_propagates fw s tdl vdl k m s' trk tr pe h1 h2
  · intro dsg tfmE idx e h
    simp [DatasetTfm.getitemE, h]
  · intro dsg f idx p e h1 h2
    simp [DatasetTfm.getitemE, h1, h2]
  · intro toTE dflt t dev e h
    simp [to_deviceE, h]
  · intro toTE dflt o rest dev e h
    simp [to_deviceE, List.attach_map_coe, exceptSeqList, h]
  · intro toTE dflt d b e h
    simpa [DeviceDataLoader.proc_batchE] using h
  · intro mkReLU mkBN bn e
    simp [conv2d_reluE]
  · intro c mkBN bn e
    simp [conv2d_reluE]
  · intro c r e
    simp [conv2d_reluE]
  · intro epochs s tdl vdl e
    simp [Learner_fitE]
  · intro epochs s tdl vdl
    simp [Learner_fitE]

theorem glue_propagates_failures_witness :
    failFW.forward () [Tensors.tensor ()] = Except.error 7 ∧
    loss_batchE failFW () (Tensors.tensor ()) (Tensors.tensor ()) true =
      (Except.error 7, [Ev.forward [Tensors.tensor ()]]) :=
  ⟨rfl, (@glue_propagates_failures Unit Unit Unit Unit Unit Nat failFW).1
      () (Tensors.tensor ()) (Tensors.tensor ()) true 7 rfl⟩
